import Mathlib

/-!
# inventory-service: the `products` package

A shallow embedding of `internal/products` (model.go, handler.go, repository.go) and of the
pieces of the Go standard library and of pgx that its observable behaviour depends on.

* Go's `int` is the 64-bit `int` of the platforms the service is built for; values are `Int`,
  and the only place where the width matters, `strconv.Atoi`, carries its bounds explicitly.
* `float64` and `time.Time` values are only stored and passed on by this package, never
  computed with: they are carried as plain data.
* An interface value (`ProductRepository`, `Database`) is a record of state-passing functions
  over an arbitrary state type; `traced` wraps such a record so that every call is logged, the
  way the repository's testify mock and pgxmock record calls.
* `context.Context` only carries cancellation and is left out.
-/

namespace products

/-! ## Values -/

/-- A Go `float64`, as its IEEE-754 bit pattern. -/
structure Float64 where
  bits : Nat
  deriving DecidableEq, Repr

/-- A Go `time.Time`: seconds and nanoseconds since January 1, year 1, 00:00:00 UTC, and the
offset of its zone east of UTC in seconds (0 for UTC). The zero value is the zero
`time.Time`. -/
structure Time where
  sec : Int
  nsec : Nat
  offset : Int := 0
  deriving DecidableEq, Repr

/-- The zero value of `time.Time`. -/
def Time.zero : Time := { sec := 0, nsec := 0 }

/-- A Go `error` value that is not nil: `errors.New(text)`, or the `*fmt.wrapError` that
`fmt.Errorf` builds for a format with one `%w` verb. -/
inductive GoError where
  | New (text : String)
  | wrapError (msg : String) (err : GoError)
  deriving DecidableEq, Repr

/-- The method `Error()`. -/
def GoError.Error : GoError → String
  | .New text => text
  | .wrapError msg _ => msg

/-- The method `Unwrap()`, as `errors.Unwrap` sees it: nil for an error that wraps nothing. -/
def GoError.Unwrap : GoError → Option GoError
  | .New _ => none
  | .wrapError _ err => some err

/-- The function `errors.Is(err, target)`: `target` occurs on the `Unwrap` chain of `err`.
Error values are compared by their structure. -/
def GoError.Is : GoError → GoError → Bool
  | .New text, target => decide (GoError.New text = target)
  | .wrapError msg err, target => decide (GoError.wrapError msg err = target) || GoError.Is err target

/-- The call `fmt.Errorf(pfx + "%w", err)` for a format that is a literal text followed by `%w`. -/
def Errorf (pfx : String) (err : GoError) : GoError :=
  .wrapError (pfx ++ err.Error) err

/-- A Go `error`: nil or an error value. -/
abbrev error := Option GoError

/-! ## strconv -/

/-- The constant `strconv.IntSize` of a 64-bit platform. -/
def intSize : Nat := 64

/-- The sentinel `strconv.ErrSyntax`. -/
def ErrSyntax : GoError := .New "invalid syntax"

/-- The sentinel `strconv.ErrRange`. -/
def ErrRange : GoError := .New "value out of range"

/-- The bytes of a Go string. -/
def bytes (s : String) : List Nat := (s.toList.flatMap String.utf8EncodeChar).map UInt8.toNat

/-- The digit loop of `strconv.ParseUint` for base 10 on `uint64`: `n` is the value read so far.
The loop leaves at the first byte that is not a digit (syntax error, value 0) and at the first
overflow (range error, value `maxVal`), whatever follows. -/
def parseUintLoop (maxVal : Nat) : List Nat → Nat → Nat × error
  | [], n => (n, none)
  | c :: cs, n =>
    if 48 ≤ c ∧ c ≤ 57 then
      let d := c - 48
      -- cutoff = maxUint64/10 + 1
      if n ≥ (2 ^ 64 - 1) / 10 + 1 then (maxVal, some ErrRange)
      else
        let n10 := n * 10 % 2 ^ 64
        let n1 := (n10 + d) % 2 ^ 64
        if n1 < n10 ∨ n1 > maxVal then (maxVal, some ErrRange)
        else parseUintLoop maxVal cs n1
    else (0, some ErrSyntax)

/-- The call `strconv.ParseUint(s, 10, bitSize)` for `bitSize` 0 (the size of `int`) or
between 1 and 64, on the bytes of `s`. -/
def ParseUint (s : List Nat) (bitSize : Nat) : Nat × error :=
  if s = [] then (0, some ErrSyntax)
  else
    let bitSize := if bitSize = 0 then intSize else bitSize
    parseUintLoop (2 ^ bitSize - 1) s 0

/-- The call `strconv.ParseInt(s, 10, bitSize)` on the bytes of `s`. -/
def ParseInt (s : List Nat) (bitSize : Nat) : Int × error :=
  if s = [] then (0, some ErrSyntax)
  else
    let neg := s.head? = some 45
    let s1 := if s.head? = some 43 ∨ s.head? = some 45 then s.tail else s
    match ParseUint s1 bitSize with
    | (un, err) =>
      if err.isSome ∧ err ≠ some ErrRange then (0, err)
      else
        let bitSize := if bitSize = 0 then intSize else bitSize
        let cutoff := 2 ^ (bitSize - 1)
        if ¬ neg ∧ un ≥ cutoff then ((cutoff : Int) - 1, some ErrRange)
        else if neg ∧ un > cutoff then (-(cutoff : Int), some ErrRange)
        else (if neg then -(un : Int) else (un : Int), none)

/-- The digit loop of the fast path of `strconv.Atoi`. -/
def atoiFastLoop : List Nat → Nat → Option Nat
  | [], n => some n
  | ch :: cs, n =>
    -- ch -= '0' on a byte, then ch > 9
    if (ch + 256 - 48) % 256 > 9 then none
    else atoiFastLoop cs (n * 10 + (ch + 256 - 48) % 256)

/-- The function `strconv.Atoi`: the value and the error it returns. -/
def Atoi (s : String) : Int × error :=
  let b := bytes s
  let sLen := b.length
  if (intSize = 32 ∧ 0 < sLen ∧ sLen < 10) ∨ (intSize = 64 ∧ 0 < sLen ∧ sLen < 19) then
    let signed := b.head? = some 45 ∨ b.head? = some 43
    let b1 := if signed then b.tail else b
    if signed ∧ b1.length < 1 then (0, some ErrSyntax)
    else
      match atoiFastLoop b1 0 with
      | none => (0, some ErrSyntax)
      | some n => (if b.head? = some 45 then -(n : Int) else (n : Int), none)
  else
    -- int(i64) is the identity on a 64-bit platform
    ParseInt b 0

/-! ## model.go -/

/-- The struct `Product` of model.go. `ExpiryDate` is a `*time.Time`: `none` is the nil pointer. -/
structure Product where
  ID : Int
  Name : String
  Category : String
  Quantity : Int
  Unit : String
  Price : Float64
  ExpiryDate : Option Time
  CreatedAt : Time
  UpdatedAt : Time
  deriving DecidableEq, Repr

/-- The zero value of `Product`, what `var p Product` declares. -/
def Product.zero : Product :=
  { ID := 0, Name := "", Category := "", Quantity := 0, Unit := "", Price := { bits := 0 },
    ExpiryDate := none, CreatedAt := Time.zero, UpdatedAt := Time.zero }

/-- A Go slice `[]Product`: `none` is the nil slice, `some []` an empty slice that is not nil. -/
abbrev ProductSlice := Option (List Product)

/-- The elements of a slice, in order (none for the nil slice). -/
def ProductSlice.elems (s : ProductSlice) : List Product := s.getD []

/-- The builtin `append(s, p)`: the result is never nil. -/
def ProductSlice.append (s : ProductSlice) (p : Product) : ProductSlice :=
  some (s.elems ++ [p])

/-! ## encoding/json -/

/-- A JSON value as `encoding/json` reads and writes it. A number keeps its literal text and a
string its unquoted content. -/
inductive JSON where
  | null
  | bool (b : Bool)
  | number (lit : String)
  | string (s : String)
  | array (elems : List JSON)
  | object (members : List (String × JSON))

/-- The conversions between JSON text and `float64` or `time.Time` values that `encoding/json`
delegates to `strconv` and `time`. They are left uninterpreted:
`ParseFloat lit` is `strconv.ParseFloat(lit, 64)` (`none` on an error),
`FormatFloat f` the literal the encoder writes for `f` (`none` for NaN and the infinities,
which the encoder refuses), `ParseTime s` is `Time.UnmarshalJSON` on the JSON string with
content `s`, and `FormatTime t` the content of the string `Time.MarshalJSON` produces
(`none` when it fails, for a year outside 0..9999). -/
structure Conv where
  ParseFloat : String → Option Float64
  FormatFloat : Float64 → Option String
  ParseTime : String → Option Time
  FormatTime : Time → Option String

/-- The error `*json.UnmarshalTypeError`: a JSON value that does not fit the Go type. -/
def UnmarshalTypeError (value field : String) : GoError :=
  .New ("json: cannot unmarshal " ++ value ++ " into Go struct field Product." ++ field)

/-- Decoding a JSON value into a field of type `string`; `old` is the field's current value,
which a JSON null leaves in place. -/
def decodeString (field : String) (old : String) : JSON → Except GoError String
  | .null => .ok old
  | .string s => .ok s
  | _ => .error (UnmarshalTypeError "value" field)

/-- Decoding a JSON value into a field of type `int`: the literal goes through
`strconv.ParseInt(lit, 10, 64)`. -/
def decodeInt (field : String) (old : Int) : JSON → Except GoError Int
  | .null => .ok old
  | .number lit =>
    match ParseInt (bytes lit) 64 with
    | (n, none) => .ok n
    | (_, some _) => .error (UnmarshalTypeError ("number " ++ lit) field)
  | _ => .error (UnmarshalTypeError "value" field)

/-- Decoding a JSON value into a field of type `float64`. -/
def decodeFloat (cv : Conv) (field : String) (old : Float64) : JSON → Except GoError Float64
  | .null => .ok old
  | .number lit =>
    match cv.ParseFloat lit with
    | some f => .ok f
    | none => .error (UnmarshalTypeError ("number " ++ lit) field)
  | _ => .error (UnmarshalTypeError "value" field)

/-- Decoding a JSON value into a field of type `time.Time`, through `Time.UnmarshalJSON`, which
ignores a JSON null and refuses what is not a string. -/
def decodeTime (cv : Conv) (old : Time) : JSON → Except GoError Time
  | .null => .ok old
  | .string s =>
    match cv.ParseTime s with
    | some t => .ok t
    | none => .error (.New "parsing time: cannot parse")
  | _ => .error (.New "Time.UnmarshalJSON: input is not a JSON string")

/-- Decoding a JSON value into a field of type `*time.Time`: a JSON null sets the pointer
to nil, anything else goes to `Time.UnmarshalJSON` on a fresh `time.Time`. -/
def decodeTimePtr (cv : Conv) : JSON → Except GoError (Option Time)
  | .null => .ok none
  | v => (decodeTime cv Time.zero v).map some

/-- A key of a JSON object with its ASCII letters in lower case. -/
def foldKey (key : String) : String := String.mk (key.toList.map Char.toLower)

/-- One member `key: v` of a JSON object decoded into the `Product` under construction. The key
selects the field whose `json` tag it equals, exactly or up to case; a key that selects no field
is skipped. (The tags of `Product` are ASCII without `k` or `s`, so Go's case folding of the
key is the folding of ASCII letters.) -/
def decodeMember (cv : Conv) (p : Product) (key : String) (v : JSON) : Except GoError Product :=
  if foldKey key = "id" then (decodeInt "id" p.ID v).map (fun x => { p with ID := x })
  else if foldKey key = "name" then (decodeString "name" p.Name v).map (fun x => { p with Name := x })
  else if foldKey key = "category" then
    (decodeString "category" p.Category v).map (fun x => { p with Category := x })
  else if foldKey key = "quantity" then
    (decodeInt "quantity" p.Quantity v).map (fun x => { p with Quantity := x })
  else if foldKey key = "unit" then (decodeString "unit" p.Unit v).map (fun x => { p with Unit := x })
  else if foldKey key = "price" then (decodeFloat cv "price" p.Price v).map (fun x => { p with Price := x })
  else if foldKey key = "expiry_date" then (decodeTimePtr cv v).map (fun x => { p with ExpiryDate := x })
  else if foldKey key = "created_at" then
    (decodeTime cv p.CreatedAt v).map (fun x => { p with CreatedAt := x })
  else if foldKey key = "updated_at" then
    (decodeTime cv p.UpdatedAt v).map (fun x => { p with UpdatedAt := x })
  else .ok p

/-- The members of a JSON object decoded one after the other, a later one overwriting an
earlier one. The decoder reports an error if any member failed; the model stops at the first. -/
def decodeMembers (cv : Conv) : Product → List (String × JSON) → Except GoError Product
  | p, [] => .ok p
  | p, (key, v) :: rest =>
    match decodeMember cv p key v with
    | .error e => .error e
    | .ok p1 => decodeMembers cv p1 rest

/-- The function `json.Unmarshal` into a `*Product` that points to `p`: a JSON null changes
nothing, an object is decoded member by member, any other value is a type error. -/
def Unmarshal (cv : Conv) (p : Product) : JSON → Except GoError Product
  | .null => .ok p
  | .object members => decodeMembers cv p members
  | _ => .error (.New "json: cannot unmarshal value into Go value of type products.Product")

/-- The call `json.NewDecoder(r.Body).Decode(&p)` on a fresh `p`. The body is given as the JSON
value the decoder's scanner reads first from the stream, `none` when the scanner reports an
error instead (empty body, text that is not JSON); what follows the first value is not
decoded. -/
def Decode (cv : Conv) (body : Option JSON) : Except GoError Product :=
  match body with
  | none => .error (.New "invalid character looking for beginning of value")
  | some v => Unmarshal cv Product.zero v

/-- The JSON members the encoder writes for the field `ExpiryDate`, tagged `omitempty`:
none for a nil pointer. -/
def marshalExpiry (cv : Conv) : Option Time → Option (List (String × JSON))
  | none => some []
  | some t => (cv.FormatTime t).map (fun s => [("expiry_date", JSON.string s)])

/-- The function `json.Marshal` on a `Product`: an object with the fields in declaration order
under their `json` tags; `none` when the encoder returns an error. -/
def Product.Marshal (cv : Conv) (p : Product) : Option JSON :=
  match cv.FormatFloat p.Price, marshalExpiry cv p.ExpiryDate, cv.FormatTime p.CreatedAt,
    cv.FormatTime p.UpdatedAt with
  | some price, some expiry, some created, some updated =>
    some (.object ([("id", .number (toString p.ID)), ("name", .string p.Name),
      ("category", .string p.Category), ("quantity", .number (toString p.Quantity)),
      ("unit", .string p.Unit), ("price", .number price)] ++ expiry ++
      [("created_at", .string created), ("updated_at", .string updated)]))
  | _, _, _, _ => none

/-- The function `json.Marshal` on a `*Product`: a nil pointer is written as null. -/
def marshalPtr (cv : Conv) : Option Product → Option JSON
  | none => some .null
  | some p => p.Marshal cv

/-- The function `json.Marshal` on a `[]Product`: a nil slice is written as null, any other
slice as an array with one element per product. -/
def marshalSlice (cv : Conv) : ProductSlice → Option JSON
  | none => some .null
  | some ps => (ps.mapM (Product.Marshal cv)).map JSON.array

/-! ## net/http -/

/-- The constant `http.StatusOK`. -/
def StatusOK : Nat := 200

/-- The constant `http.StatusCreated`. -/
def StatusCreated : Nat := 201

/-- The constant `http.StatusNoContent`. -/
def StatusNoContent : Nat := 204

/-- The constant `http.StatusBadRequest`. -/
def StatusBadRequest : Nat := 400

/-- The constant `http.StatusNotFound`. -/
def StatusNotFound : Nat := 404

/-- The constant `http.StatusInternalServerError`. -/
def StatusInternalServerError : Nat := 500

/-- One `Write` to the response body: a line of text, or a JSON document followed by a
newline. -/
inductive Written where
  | text (line : String)
  | json (doc : JSON)

/-- The response as `httptest.ResponseRecorder` records it: the status code, whether the header
has been written, and the writes to the body. -/
structure ResponseRecorder where
  Code : Nat
  wroteHeader : Bool
  Body : List Written

/-- The function `httptest.NewRecorder`. -/
def NewRecorder : ResponseRecorder := { Code := 200, wroteHeader := false, Body := [] }

/-- The method `WriteHeader`: the first status code written stays. -/
def ResponseRecorder.WriteHeader (w : ResponseRecorder) (code : Nat) : ResponseRecorder :=
  if w.wroteHeader then w else { w with Code := code, wroteHeader := true }

/-- The method `Write`: writes the header with status 200 if none was written yet. -/
def ResponseRecorder.Write (w : ResponseRecorder) (b : Written) : ResponseRecorder :=
  let w1 := w.WriteHeader StatusOK
  { w1 with Body := w1.Body ++ [b] }

/-- The function `http.Error`: the status code, then the message as a line of text. -/
def Error (w : ResponseRecorder) (msg : String) (code : Nat) : ResponseRecorder :=
  (w.WriteHeader code).Write (.text (msg ++ "\n"))

/-- The call `json.NewEncoder(w).Encode(v)`, given what `json.Marshal` makes of `v`: the document
is written in one `Write`, and nothing is written when the encoder returns an error. -/
def Encode (w : ResponseRecorder) (doc : Option JSON) : ResponseRecorder :=
  match doc with
  | none => w
  | some d => w.Write (.json d)

/-- The request, as far as the handlers read it: the body, and the value of
`chi.URLParam(r, "id")`. -/
structure Request where
  Body : Option JSON
  id : String

/-! ## handler.go -/

/-- The interface `ProductRepository`. A method takes the state of the store behind the
interface and returns its results with the new state. -/
structure ProductRepository (σ : Type) where
  CreateProduct : String → String → String → Int → Float64 → Option Time → σ → (Int × error) × σ
  GetProductByID : Int → σ → (Option Product × error) × σ
  GetProducts : σ → (ProductSlice × error) × σ
  UpdateProduct : Int → String → String → String → Int → Float64 → Option Time → σ → error × σ
  DeleteProduct : Int → σ → error × σ

/-- The struct `ProductHandler`. -/
structure ProductHandler (σ : Type) where
  Repo : ProductRepository σ

/-- The function `NewProductHandler`. -/
def NewProductHandler {σ : Type} (repo : ProductRepository σ) : ProductHandler σ := { Repo := repo }

/-- The handler `CreateProduct`. -/
def ProductHandler.CreateProduct {σ : Type} (cv : Conv) (h : ProductHandler σ)
    (w : ResponseRecorder) (r : Request) (st : σ) : ResponseRecorder × σ :=
  match Decode cv r.Body with
  | .error _ => (Error w "Invalid request body" StatusBadRequest, st)
  | .ok p =>
    match h.Repo.CreateProduct p.Name p.Category p.Unit p.Quantity p.Price p.ExpiryDate st with
    | ((_, some _), st1) => (Error w "Failed to create product" StatusInternalServerError, st1)
    | ((id, none), st1) =>
      let p1 := { p with ID := id }
      (Encode (w.WriteHeader StatusCreated) (p1.Marshal cv), st1)

/-- The handler `GetProductByID`. -/
def ProductHandler.GetProductByID {σ : Type} (cv : Conv) (h : ProductHandler σ)
    (w : ResponseRecorder) (r : Request) (st : σ) : ResponseRecorder × σ :=
  let id := (Atoi r.id).1
  match h.Repo.GetProductByID id st with
  | ((_, some _), st1) => (Error w "Product not found" StatusNotFound, st1)
  | ((product, none), st1) => (Encode w (marshalPtr cv product), st1)

/-- The handler `GetProducts`. -/
def ProductHandler.GetProducts {σ : Type} (cv : Conv) (h : ProductHandler σ)
    (w : ResponseRecorder) (_r : Request) (st : σ) : ResponseRecorder × σ :=
  match h.Repo.GetProducts st with
  | ((_, some _), st1) => (Error w "Failed to retrieve products" StatusInternalServerError, st1)
  | ((products, none), st1) => (Encode w (marshalSlice cv products), st1)

/-- The handler `UpdateProduct`. -/
def ProductHandler.UpdateProduct {σ : Type} (cv : Conv) (h : ProductHandler σ)
    (w : ResponseRecorder) (r : Request) (st : σ) : ResponseRecorder × σ :=
  let id := (Atoi r.id).1
  match Decode cv r.Body with
  | .error _ => (Error w "Invalid request body" StatusBadRequest, st)
  | .ok updated =>
    match h.Repo.UpdateProduct id updated.Name updated.Category updated.Unit updated.Quantity
        updated.Price updated.ExpiryDate st with
    | (some _, st1) => (Error w "Failed to update product" StatusInternalServerError, st1)
    | (none, st1) =>
      let updated1 := { updated with ID := id }
      (Encode w (updated1.Marshal cv), st1)

/-- The handler `DeleteProduct`. -/
def ProductHandler.DeleteProduct {σ : Type} (_cv : Conv) (h : ProductHandler σ)
    (w : ResponseRecorder) (r : Request) (st : σ) : ResponseRecorder × σ :=
  let id := (Atoi r.id).1
  match h.Repo.DeleteProduct id st with
  | (some _, st1) => (Error w "Product not found" StatusNotFound, st1)
  | (none, st1) => (w.WriteHeader StatusNoContent, st1)

/-- A call of a method of `ProductRepository`, with its arguments. -/
inductive RepoCall where
  | CreateProduct (name category unit : String) (quantity : Int) (price : Float64)
      (expiryDate : Option Time)
  | GetProductByID (id : Int)
  | GetProducts
  | UpdateProduct (id : Int) (name category unit : String) (quantity : Int) (price : Float64)
      (expiryDate : Option Time)
  | DeleteProduct (id : Int)
  deriving DecidableEq, Repr

/-- A repository that records every call made to it before answering as `repo` does: the state
is the state of `repo` with the log of the calls, oldest first. -/
def ProductRepository.traced {σ : Type} (repo : ProductRepository σ) :
    ProductRepository (σ × List RepoCall) where
  CreateProduct := fun name category unit quantity price expiryDate st =>
    let res := repo.CreateProduct name category unit quantity price expiryDate st.1
    (res.1, (res.2, st.2 ++ [.CreateProduct name category unit quantity price expiryDate]))
  GetProductByID := fun id st =>
    let res := repo.GetProductByID id st.1
    (res.1, (res.2, st.2 ++ [.GetProductByID id]))
  GetProducts := fun st =>
    let res := repo.GetProducts st.1
    (res.1, (res.2, st.2 ++ [.GetProducts]))
  UpdateProduct := fun id name category unit quantity price expiryDate st =>
    let res := repo.UpdateProduct id name category unit quantity price expiryDate st.1
    (res.1, (res.2, st.2 ++ [.UpdateProduct id name category unit quantity price expiryDate]))
  DeleteProduct := fun id st =>
    let res := repo.DeleteProduct id st.1
    (res.1, (res.2, st.2 ++ [.DeleteProduct id]))

/-! ## pgx -/

/-- An argument of a query, a Go value passed as `interface{}`. -/
inductive Arg where
  | string (s : String)
  | int (n : Int)
  | float64 (f : Float64)
  | timePtr (t : Option Time)
  deriving DecidableEq, Repr

/-- A column value of a result row. -/
inductive Value where
  | null
  | int (n : Int)
  | text (s : String)
  | float (f : Float64)
  | timestamp (t : Time)
  deriving DecidableEq, Repr

/-- A `pgx.Row`: the error its `Scan` will report before it reads any column (the query failed,
or `pgx.ErrNoRows` when the result is empty), or the column values of the first row. -/
abbrev Row := Except GoError (List Value)

/-- A `pgx.Rows`: the rows that `Next` delivers, in order, and the error `Err()` holds after the
last one. -/
structure Rows where
  rows : List (List Value)
  err : error

/-- A `pgconn.CommandTag`, as the number of rows the statement affected. -/
structure CommandTag where
  rowsAffected : Nat
  deriving DecidableEq, Repr

/-- The sentinel `pgx.ErrNoRows`. -/
def ErrNoRows : GoError := .New "no rows in result set"

/-- The interface `Database`. A method takes the state of the database and returns its
results with the new state. -/
structure Database (δ : Type) where
  QueryRow : String → List Arg → δ → Row × δ
  Exec : String → List Arg → δ → (CommandTag × error) × δ
  Query : String → List Arg → δ → (Rows × error) × δ

/-- The error of a `Scan` that cannot store column `i` in its destination. -/
def scanError (i : Nat) : GoError := .New ("can't scan into dest[" ++ toString i ++ "]")

/-- The error of a `Scan` whose destinations are not as many as the columns. -/
def scanArityError : GoError :=
  .New "number of field descriptions must equal number of destinations"

/-- Column `i` scanned into an `*int`. -/
def scanInt (i : Nat) : Value → Except GoError Int
  | .int n => .ok n
  | _ => .error (scanError i)

/-- Column `i` scanned into a `*string`. -/
def scanString (i : Nat) : Value → Except GoError String
  | .text s => .ok s
  | _ => .error (scanError i)

/-- Column `i` scanned into a `*float64`. -/
def scanFloat64 (i : Nat) : Value → Except GoError Float64
  | .float f => .ok f
  | _ => .error (scanError i)

/-- Column `i` scanned into a `*time.Time`. -/
def scanTime (i : Nat) : Value → Except GoError Time
  | .timestamp t => .ok t
  | _ => .error (scanError i)

/-- Column `i` scanned into a `**time.Time`: SQL NULL gives the nil pointer. -/
def scanTimePtr (i : Nat) : Value → Except GoError (Option Time)
  | .null => .ok none
  | .timestamp t => .ok (some t)
  | _ => .error (scanError i)

/-- The column values of a row scanned into `&id`. -/
def scanID : List Value → Except GoError Int
  | [c0] => scanInt 0 c0
  | _ => .error scanArityError

/-- The column values of a row scanned into `&product.ID, &product.Name, &product.Category,
&product.Quantity, &product.Unit, &product.Price, &product.ExpiryDate, &product.CreatedAt,
&product.UpdatedAt`, one column after the other. -/
def scanProduct : List Value → Except GoError Product
  | [c0, c1, c2, c3, c4, c5, c6, c7, c8] => do
    let id ← scanInt 0 c0
    let name ← scanString 1 c1
    let category ← scanString 2 c2
    let quantity ← scanInt 3 c3
    let unit ← scanString 4 c4
    let price ← scanFloat64 5 c5
    let expiryDate ← scanTimePtr 6 c6
    let createdAt ← scanTime 7 c7
    let updatedAt ← scanTime 8 c8
    pure { ID := id, Name := name, Category := category, Quantity := quantity, Unit := unit,
           Price := price, ExpiryDate := expiryDate, CreatedAt := createdAt,
           UpdatedAt := updatedAt }
  | _ => .error scanArityError

/-! ## repository.go -/

/-- The struct `Repository`. -/
structure Repository (δ : Type) where
  db : Database δ

/-- The function `NewRepository`. -/
def NewRepository {δ : Type} (db : Database δ) : Repository δ := { db := db }

/-- The constant `queryCreateProduct`, a raw string literal: its line breaks and tabs are part
of the text. -/
def queryCreateProduct : String :=
  "\n\t\tINSERT INTO products (name, category, quantity, unit, price, expiry_date, created_at, updated_at) \n\t\tVALUES ($1, $2, $3, $4, $5, $6, NOW(), NOW()) RETURNING id"

/-- The constant `queryGetProductByID`. -/
def queryGetProductByID : String :=
  "\n\t\tSELECT id, name, category, quantity, unit, price, expiry_date, created_at, updated_at \n\t\tFROM products WHERE id = $1"

/-- The constant `queryGetProducts`. -/
def queryGetProducts : String :=
  "\n\t\tSELECT id, name, category, quantity, unit, price, expiry_date, created_at, updated_at \n\t\tFROM products"

/-- The constant `queryUpdateProduct`. -/
def queryUpdateProduct : String :=
  "\n\t\tUPDATE products \n\t\tSET name = $1, category = $2, quantity = $3, unit = $4, price = $5, expiry_date = $6, updated_at = NOW() \n\t\tWHERE id = $7"

/-- The constant `queryDeleteProduct`. -/
def queryDeleteProduct : String :=
  "\n\t\tDELETE FROM products WHERE id = $1"

/-- The method `Repository.CreateProduct`. -/
def Repository.CreateProduct {δ : Type} (r : Repository δ) (name category unit : String)
    (quantity : Int) (price : Float64) (expiryDate : Option Time) (st : δ) : (Int × error) × δ :=
  match r.db.QueryRow queryCreateProduct
      [.string name, .string category, .int quantity, .string unit, .float64 price,
        .timePtr expiryDate] st with
  | (row, st1) =>
    match row >>= scanID with
    | .error err => ((0, some (Errorf "failed to create product: " err)), st1)
    | .ok id => ((id, none), st1)

/-- The method `Repository.GetProductByID`. The result is the `*Product` (nil as `none`)
and the error. -/
def Repository.GetProductByID {δ : Type} (r : Repository δ) (id : Int) (st : δ) :
    (Option Product × error) × δ :=
  match r.db.QueryRow queryGetProductByID [.int id] st with
  | (row, st1) =>
    match row >>= scanProduct with
    | .error err => ((none, some (Errorf "failed to get product: " err)), st1)
    | .ok product => ((some product, none), st1)

/-- The loop `for rows.Next()` of `Repository.GetProducts` over the rows still to come, with
the slice `products` built so far. -/
def scanRows : List (List Value) → ProductSlice → ProductSlice × error
  | [], products => (products, none)
  | row :: rest, products =>
    match scanProduct row with
    | .error err => (none, some (Errorf "failed to scan product row: " err))
    | .ok product => scanRows rest (products.append product)

/-- The method `Repository.GetProducts`. The loop starts from the nil slice of
`var products []Product`; `rows.Err()` is not consulted. -/
def Repository.GetProducts {δ : Type} (r : Repository δ) (st : δ) : (ProductSlice × error) × δ :=
  match r.db.Query queryGetProducts [] st with
  | ((_, some err), st1) => ((none, some (Errorf "failed to get products: " err)), st1)
  | ((rows, none), st1) => (scanRows rows.rows none, st1)

/-- The method `Repository.UpdateProduct`. -/
def Repository.UpdateProduct {δ : Type} (r : Repository δ) (id : Int) (name category unit : String)
    (quantity : Int) (price : Float64) (expiryDate : Option Time) (st : δ) : error × δ :=
  match r.db.Exec queryUpdateProduct
      [.string name, .string category, .int quantity, .string unit, .float64 price,
        .timePtr expiryDate, .int id] st with
  | ((_, some err), st1) => (some (Errorf "failed to update product: " err), st1)
  | ((_, none), st1) => (none, st1)

/-- The method `Repository.DeleteProduct`. -/
def Repository.DeleteProduct {δ : Type} (r : Repository δ) (id : Int) (st : δ) : error × δ :=
  match r.db.Exec queryDeleteProduct [.int id] st with
  | ((_, some err), st1) => (some (Errorf "failed to delete product: " err), st1)
  | ((_, none), st1) => (none, st1)

/-- A `*Repository` used as a `ProductRepository`, as `NewRouter` does. -/
def Repository.asProductRepository {δ : Type} (r : Repository δ) : ProductRepository δ where
  CreateProduct := r.CreateProduct
  GetProductByID := r.GetProductByID
  GetProducts := r.GetProducts
  UpdateProduct := r.UpdateProduct
  DeleteProduct := r.DeleteProduct

/-- A call of a method of `Database`, with the statement and its arguments. -/
inductive DBCall where
  | QueryRow (sql : String) (args : List Arg)
  | Exec (sql : String) (args : List Arg)
  | Query (sql : String) (args : List Arg)
  deriving DecidableEq, Repr

/-- A database that records every call made to it before answering as `db` does. -/
def Database.traced {δ : Type} (db : Database δ) : Database (δ × List DBCall) where
  QueryRow := fun sql args st =>
    let res := db.QueryRow sql args st.1
    (res.1, (res.2, st.2 ++ [.QueryRow sql args]))
  Exec := fun sql args st =>
    let res := db.Exec sql args st.1
    (res.1, (res.2, st.2 ++ [.Exec sql args]))
  Query := fun sql args st =>
    let res := db.Query sql args st.1
    (res.1, (res.2, st.2 ++ [.Query sql args]))

/-! ## Reference for `Repository.GetProducts` -/

/-- What a caller sees of a result `(products, err)`: an error with no products, an error next
to a slice that is not nil, or no error and the sequence of the products. -/
inductive Outcome where
  | failed
  | failedWith (ps : List Product)
  | products (ps : List Product)
  deriving DecidableEq, Repr

/-- The outcome a pair `(products, err)` stands for. -/
def observe : ProductSlice × error → Outcome
  | (none, some _) => .failed
  | (some ps, some _) => .failedWith ps
  | (s, none) => .products s.elems

/-- The product a row stands for, when its nine columns scan. -/
def rowProduct (row : List Value) : Option Product := (scanProduct row).toOption

/-- Reference for `GetProducts`, after the specification: if the multi-row query fails, an
error and no products; otherwise, if any row fails to scan, an error and no products;
otherwise no error and one `Product` per row, in the order of the rows. The query fails when
`Query` returns an error and when the reading of its rows ends with an error, the one `Err()`
holds. -/
def GetProductsSpec (query : Rows × error) : Outcome :=
  if query.2.isSome ∨ query.1.err.isSome then .failed
  else if query.1.rows.any (fun row => (rowProduct row).isNone) then .failed
  else .products (query.1.rows.filterMap rowProduct)

/-! ## The statements as text -/

/-- The placeholder of the positional parameter number `i`, counted from 0: `$1` for the
first. -/
def placeholder (i : Nat) : String := "$" ++ toString (i + 1)

/-- The text of an insert into `products` that gives column number `i` of `columns` the
positional parameter number `i`, and the two timestamps `NOW()`. -/
def insertStatement (columns : List String) : String :=
  "\n\t\tINSERT INTO products (" ++ ", ".intercalate columns ++ ", created_at, updated_at) \n\t\tVALUES ("
    ++ ", ".intercalate ((List.range columns.length).map placeholder)
    ++ ", NOW(), NOW()) RETURNING id"

/-- The text of an update of `products` that sets column number `i` of `columns` to the
positional parameter number `i`, and selects the row by the parameter after the last column. -/
def updateStatement (columns : List String) : String :=
  "\n\t\tUPDATE products \n\t\tSET "
    ++ ", ".intercalate (columns.enum.map (fun ic => ic.2 ++ " = " ++ placeholder ic.1))
    ++ ", updated_at = NOW() \n\t\tWHERE id = " ++ placeholder columns.length

/-- The column value of a nullable timestamp: SQL NULL for an absent time. -/
def Value.ofTimePtr : Option Time → Value
  | none => .null
  | some t => .timestamp t

/-! ## Fixtures of the tests -/

/-- The conversions on the literals that occur in handler_test.go and repository_test.go, the
price 2.5, the price 0 and the zero time, and on the time `2024-01-01T00:00:00+24:00`: the
zone offset of 24 hours is one that `Time.UnmarshalJSON` accepts and `Time.MarshalJSON` refuses
("timezone hour outside of range [0,23]"). -/
def testConv : Conv where
  ParseFloat := fun lit =>
    if lit = "2.5" then some { bits := 0x4004000000000000 }
    else if lit = "0" then some { bits := 0 } else none
  FormatFloat := fun f =>
    if f = { bits := 0x4004000000000000 } then some "2.5"
    else if f = { bits := 0 } then some "0" else none
  ParseTime := fun s =>
    if s = "0001-01-01T00:00:00Z" then some Time.zero
    else if s = "2024-01-01T00:00:00+24:00" then
      some { sec := 63839577600, nsec := 0, offset := 86400 }
    else none
  FormatTime := fun t => if t = Time.zero then some "0001-01-01T00:00:00Z" else none

/-- The struct `MockRepository` of mock_repository.go, set up to return the same values on
every call of a method. -/
structure MockRepository where
  createProduct : Int × error
  getProductByID : Option Product × error
  getProducts : ProductSlice × error
  updateProduct : error
  deleteProduct : error

/-- The mock as a `ProductRepository`. -/
def MockRepository.repo (m : MockRepository) : ProductRepository Unit where
  CreateProduct := fun _ _ _ _ _ _ st => (m.createProduct, st)
  GetProductByID := fun _ st => (m.getProductByID, st)
  GetProducts := fun st => (m.getProducts, st)
  UpdateProduct := fun _ _ _ _ _ _ _ st => (m.updateProduct, st)
  DeleteProduct := fun _ st => (m.deleteProduct, st)

/-- A mock whose every method succeeds, `CreateProduct` with the identifier 1 as in
"Valid product creation". -/
def mockOK : MockRepository :=
  { createProduct := (1, none), getProductByID := (some Product.zero, none),
    getProducts := (some [], none), updateProduct := none, deleteProduct := none }

/-- A mock whose every method fails with the error of "Database failure". -/
def mockFailing : MockRepository :=
  { createProduct := (0, some (.New "invalid input")),
    getProductByID := (none, some (.New "invalid input")),
    getProducts := (none, some (.New "invalid input")),
    updateProduct := some (.New "invalid input"),
    deleteProduct := some (.New "invalid input") }

/-- The body of "Valid product creation": `json.Marshal` of
`Product{Name: "Milk", Category: "Dairy", Unit: "Liter", Price: 2.5, Quantity: 10}`. -/
def milkBody : JSON :=
  .object [("id", .number "0"), ("name", .string "Milk"), ("category", .string "Dairy"),
    ("quantity", .number "10"), ("unit", .string "Liter"), ("price", .number "2.5"),
    ("created_at", .string "0001-01-01T00:00:00Z"), ("updated_at", .string "0001-01-01T00:00:00Z")]

/-- The product of "Valid product creation". -/
def milk : Product :=
  { Product.zero with Name := "Milk", Category := "Dairy", Unit := "Liter",
                      Price := { bits := 0x4004000000000000 }, Quantity := 10 }

/-- The body of "Valid product creation" with an expiry date in a zone 24 hours east of
UTC. -/
def milkOffsetBody : JSON :=
  .object [("id", .number "0"), ("name", .string "Milk"), ("category", .string "Dairy"),
    ("quantity", .number "10"), ("unit", .string "Liter"), ("price", .number "2.5"),
    ("expiry_date", .string "2024-01-01T00:00:00+24:00"),
    ("created_at", .string "0001-01-01T00:00:00Z"), ("updated_at", .string "0001-01-01T00:00:00Z")]

/-- The product `milkOffsetBody` decodes to. -/
def milkOffset : Product :=
  { milk with ExpiryDate := some { sec := 63839577600, nsec := 0, offset := 86400 } }

/-- The body of "Not a valid Prodcut JSON": `json.Marshal` of `struct{ field string }{""}`,
which has no exported field. -/
def emptyObjectBody : JSON := .object []

/-- A pgxmock-like database that answers every call with the same prepared results. -/
def mockDB (row : Row) (exec : CommandTag × error) (query : Rows × error) : Database Unit where
  QueryRow := fun _ _ st => (row, st)
  Exec := fun _ _ st => (exec, st)
  Query := fun _ _ st => (query, st)

/-- A database whose `products` table has no rows: every query succeeds with an empty
result. -/
def emptyTable : Database Unit :=
  mockDB (.error ErrNoRows) ({ rowsAffected := 0 }, none) ({ rows := [], err := none }, none)

/-- The two rows of `TestRepository_GetProducts`; `now` stands for the test's `time.Now()`. -/
def milkAndCheeseRows (now : Time) : List (List Value) :=
  [[.int 1, .text "Milk", .text "Dairy", .int 100, .text "liters",
     .float { bits := 0x4004000000000000 }, .null, .timestamp now, .timestamp now],
   [.int 2, .text "Cheese", .text "Dairy", .int 50, .text "kg",
     .float { bits := 0x4014000000000000 }, .null, .timestamp now, .timestamp now]]

/-- An instant for the tests' `time.Now()`. -/
def testNow : Time := { sec := 63900000000, nsec := 0 }

/-- A database whose multi-row query starts well and is cut short: `Query` returns no error,
`Next` delivers the first row of `TestRepository_GetProducts`, and then the reading ends with
the error "connection lost" in `Err()`. -/
def cutShortDB : Database Unit :=
  mockDB (.error ErrNoRows) ({ rowsAffected := 0 }, none)
    ({ rows := (milkAndCheeseRows testNow).take 1, err := some (.New "connection lost") }, none)

end products

namespace products

/-! ## Handlers -/

/-- C1: when the body does not decode into a `Product`, `CreateProduct` and `UpdateProduct`
answer with status 400 and the line "Invalid request body", the repository records no call
and its state is the one before the request. -/
theorem C1_decode_failure_is_400_and_store_untouched {σ : Type} (cv : Conv)
    (repo : ProductRepository σ) (r : Request) (st : σ) (e : GoError)
    (hdec : Decode cv r.Body = .error e) :
    (ProductHandler.CreateProduct cv (NewProductHandler repo.traced) NewRecorder r (st, [])
        = ({ Code := 400, wroteHeader := true, Body := [.text "Invalid request body\n"] }, (st, [])))
    ∧ (ProductHandler.UpdateProduct cv (NewProductHandler repo.traced) NewRecorder r (st, [])
        = ({ Code := 400, wroteHeader := true, Body := [.text "Invalid request body\n"] }, (st, []))) := by
  constructor
  · simp [ProductHandler.CreateProduct, hdec, Error, ResponseRecorder.Write,
      ResponseRecorder.WriteHeader, NewRecorder, StatusBadRequest]
  · simp [ProductHandler.UpdateProduct, hdec, Error, ResponseRecorder.Write,
      ResponseRecorder.WriteHeader, NewRecorder, StatusBadRequest]

/-- C1 at a body that is not JSON, for the mock repository. -/
theorem C1_decode_failure_witness :
    (ProductHandler.CreateProduct testConv (NewProductHandler mockOK.repo.traced) NewRecorder
        { Body := none, id := "1" } ((), [])
        = ({ Code := 400, wroteHeader := true, Body := [.text "Invalid request body\n"] }, ((), [])))
    ∧ (ProductHandler.UpdateProduct testConv (NewProductHandler mockOK.repo.traced) NewRecorder
        { Body := none, id := "1" } ((), [])
        = ({ Code := 400, wroteHeader := true, Body := [.text "Invalid request body\n"] }, ((), []))) :=
  C1_decode_failure_is_400_and_store_untouched testConv mockOK.repo { Body := none, id := "1" } ()
    (.New "invalid character looking for beginning of value") rfl

/-- C2, as the code has it: when the body decodes to `p` and the repository's `CreateProduct`
returns `(id, nil)`, the handler has called the repository exactly once, with
`(p.Name, p.Category, p.Unit, p.Quantity, p.Price, p.ExpiryDate)`, and the status is 201. When
`json.Marshal` encodes `p` with `ID` set to `id` and nothing else changed, the body is that one
JSON document; when it returns an error, the handler drops the error and the body is empty. -/
theorem C2_create_success_is_201_with_created_product {σ : Type} (cv : Conv)
    (repo : ProductRepository σ) (r : Request) (st st1 : σ) (p : Product) (id : Int)
    (hdec : Decode cv r.Body = .ok p)
    (hrepo : repo.CreateProduct p.Name p.Category p.Unit p.Quantity p.Price p.ExpiryDate st
      = ((id, none), st1)) :
    (ProductHandler.CreateProduct cv (NewProductHandler repo.traced) NewRecorder r (st, [])).2
        = (st1, [RepoCall.CreateProduct p.Name p.Category p.Unit p.Quantity p.Price p.ExpiryDate])
    ∧ (ProductHandler.CreateProduct cv (NewProductHandler repo.traced) NewRecorder r (st, [])).1.Code
        = 201
    ∧ (∀ doc : JSON, Product.Marshal cv { p with ID := id } = some doc →
        (ProductHandler.CreateProduct cv (NewProductHandler repo.traced) NewRecorder r (st, [])).1.Body
          = [Written.json doc])
    ∧ (Product.Marshal cv { p with ID := id } = none →
        (ProductHandler.CreateProduct cv (NewProductHandler repo.traced) NewRecorder r (st, [])).1.Body
          = []) := by
  refine ⟨?_, ?_, ?_, ?_⟩
  · simp [ProductHandler.CreateProduct, hdec, NewProductHandler, ProductRepository.traced, hrepo]
  · simp only [ProductHandler.CreateProduct, hdec, NewProductHandler, ProductRepository.traced,
      hrepo]
    cases hm : Product.Marshal cv { p with ID := id } <;>
      simp [Encode, ResponseRecorder.Write, ResponseRecorder.WriteHeader, NewRecorder,
        StatusCreated]
  · intro doc hdoc
    simp [ProductHandler.CreateProduct, hdec, NewProductHandler, ProductRepository.traced, hrepo,
      hdoc, Encode, ResponseRecorder.Write, ResponseRecorder.WriteHeader, NewRecorder]
  · intro hnone
    simp [ProductHandler.CreateProduct, hdec, NewProductHandler, ProductRepository.traced, hrepo,
      hnone, Encode, ResponseRecorder.WriteHeader, NewRecorder]

/-- C2 at the request of "Valid product creation", the mock returning the identifier 1. -/
theorem C2_create_success_witness :
    (ProductHandler.CreateProduct testConv (NewProductHandler mockOK.repo.traced) NewRecorder
        { Body := some milkBody, id := "" } ((), [])).2
        = ((), [RepoCall.CreateProduct "Milk" "Dairy" "Liter" 10 { bits := 0x4004000000000000 } none])
    ∧ (ProductHandler.CreateProduct testConv (NewProductHandler mockOK.repo.traced) NewRecorder
        { Body := some milkBody, id := "" } ((), [])).1.Code = 201
    ∧ (ProductHandler.CreateProduct testConv (NewProductHandler mockOK.repo.traced) NewRecorder
        { Body := some milkBody, id := "" } ((), [])).1.Body
        = [Written.json (.object [("id", .number "1"), ("name", .string "Milk"),
            ("category", .string "Dairy"), ("quantity", .number "10"), ("unit", .string "Liter"),
            ("price", .number "2.5"), ("created_at", .string "0001-01-01T00:00:00Z"),
            ("updated_at", .string "0001-01-01T00:00:00Z")])] :=
  have h := C2_create_success_is_201_with_created_product testConv mockOK.repo
    { Body := some milkBody, id := "" } () () milk 1 rfl rfl
  ⟨h.1, h.2.1, h.2.2.1 _ rfl⟩

/-- C2 as stated fails: the body of "Valid product creation" with the expiry date
`2024-01-01T00:00:00+24:00` decodes to a `Product` and the repository returns `(1, nil)`, yet
`json.Marshal` refuses the product with `ID` set to 1, and the handler answers 201 with an
empty body, not with the encoding of the product. -/
theorem C2_unencodable_product_gets_empty_body :
    Decode testConv (some milkOffsetBody) = .ok milkOffset
    ∧ mockOK.repo.CreateProduct milkOffset.Name milkOffset.Category milkOffset.Unit
        milkOffset.Quantity milkOffset.Price milkOffset.ExpiryDate () = ((1, none), ())
    ∧ Product.Marshal testConv { milkOffset with ID := 1 } = none
    ∧ (ProductHandler.CreateProduct testConv (NewProductHandler mockOK.repo.traced) NewRecorder
        { Body := some milkOffsetBody, id := "" } ((), [])).1.Code = 201
    ∧ (ProductHandler.CreateProduct testConv (NewProductHandler mockOK.repo.traced) NewRecorder
        { Body := some milkOffsetBody, id := "" } ((), [])).1.Body = [] :=
  ⟨rfl, rfl, rfl, rfl, rfl⟩

/-- C3: whatever error value the repository returns (and whatever it returns next to it),
`CreateProduct` and `UpdateProduct` (once the body has decoded) and `GetProducts` answer with
status 500, `GetProductByID` and `DeleteProduct` with status 404; none of these is a success
status. -/
theorem C3_repository_error_decides_status_by_handler {σ : Type} (cv : Conv)
    (repo : ProductRepository σ) (r : Request) (st : σ) :
    (∀ (p : Product) (id : Int) (e : GoError) (st1 : σ), Decode cv r.Body = .ok p →
        repo.CreateProduct p.Name p.Category p.Unit p.Quantity p.Price p.ExpiryDate st
          = ((id, some e), st1) →
        (ProductHandler.CreateProduct cv (NewProductHandler repo) NewRecorder r st).1.Code = 500)
    ∧ (∀ (p : Product) (e : GoError) (st1 : σ), Decode cv r.Body = .ok p →
        repo.UpdateProduct (Atoi r.id).1 p.Name p.Category p.Unit p.Quantity p.Price p.ExpiryDate st
          = (some e, st1) →
        (ProductHandler.UpdateProduct cv (NewProductHandler repo) NewRecorder r st).1.Code = 500)
    ∧ (∀ (ps : ProductSlice) (e : GoError) (st1 : σ), repo.GetProducts st = ((ps, some e), st1) →
        (ProductHandler.GetProducts cv (NewProductHandler repo) NewRecorder r st).1.Code = 500)
    ∧ (∀ (product : Option Product) (e : GoError) (st1 : σ),
        repo.GetProductByID (Atoi r.id).1 st = ((product, some e), st1) →
        (ProductHandler.GetProductByID cv (NewProductHandler repo) NewRecorder r st).1.Code = 404)
    ∧ (∀ (e : GoError) (st1 : σ), repo.DeleteProduct (Atoi r.id).1 st = (some e, st1) →
        (ProductHandler.DeleteProduct cv (NewProductHandler repo) NewRecorder r st).1.Code = 404) := by
  refine ⟨?_, ?_, ?_, ?_, ?_⟩
  · intro p id e st1 hdec hrepo
    simp [ProductHandler.CreateProduct, hdec, NewProductHandler, hrepo, Error,
      ResponseRecorder.Write, ResponseRecorder.WriteHeader, NewRecorder,
      StatusInternalServerError]
  · intro p e st1 hdec hrepo
    simp [ProductHandler.UpdateProduct, hdec, NewProductHandler, hrepo, Error,
      ResponseRecorder.Write, ResponseRecorder.WriteHeader, NewRecorder,
      StatusInternalServerError]
  · intro ps e st1 hrepo
    simp [ProductHandler.GetProducts, NewProductHandler, hrepo, Error,
      ResponseRecorder.Write, ResponseRecorder.WriteHeader, NewRecorder,
      StatusInternalServerError]
  · intro product e st1 hrepo
    simp [ProductHandler.GetProductByID, NewProductHandler, hrepo, Error,
      ResponseRecorder.Write, ResponseRecorder.WriteHeader, NewRecorder, StatusNotFound]
  · intro e st1 hrepo
    simp [ProductHandler.DeleteProduct, NewProductHandler, hrepo, Error,
      ResponseRecorder.Write, ResponseRecorder.WriteHeader, NewRecorder, StatusNotFound]

/-- C3 at the failing mock of "Database failure", for the five handlers. -/
theorem C3_repository_error_witness :
    (ProductHandler.CreateProduct testConv (NewProductHandler mockFailing.repo) NewRecorder
        { Body := some milkBody, id := "7" } ()).1.Code = 500
    ∧ (ProductHandler.UpdateProduct testConv (NewProductHandler mockFailing.repo) NewRecorder
        { Body := some milkBody, id := "7" } ()).1.Code = 500
    ∧ (ProductHandler.GetProducts testConv (NewProductHandler mockFailing.repo) NewRecorder
        { Body := some milkBody, id := "7" } ()).1.Code = 500
    ∧ (ProductHandler.GetProductByID testConv (NewProductHandler mockFailing.repo) NewRecorder
        { Body := some milkBody, id := "7" } ()).1.Code = 404
    ∧ (ProductHandler.DeleteProduct testConv (NewProductHandler mockFailing.repo) NewRecorder
        { Body := some milkBody, id := "7" } ()).1.Code = 404 :=
  have h := C3_repository_error_decides_status_by_handler testConv mockFailing.repo
    { Body := some milkBody, id := "7" } ()
  ⟨h.1 milk 0 (.New "invalid input") () rfl rfl,
   h.2.1 milk (.New "invalid input") () rfl rfl,
   h.2.2.1 none (.New "invalid input") () rfl,
   h.2.2.2.1 none (.New "invalid input") () rfl,
   h.2.2.2.2 (.New "invalid input") () rfl⟩

/-- C4: the body `{}` of the test decodes without an error to the zero `Product`, so
`CreateProduct` calls the repository once, with empty strings, zeros and a nil expiry date, and
its status is never 400: it is 201 when that call succeeds and 500 when it fails. -/
theorem C4_empty_object_decodes_and_reaches_repository {σ : Type} (cv : Conv)
    (repo : ProductRepository σ) (st : σ) :
    Decode cv (some emptyObjectBody) = .ok Product.zero
    ∧ (ProductHandler.CreateProduct cv (NewProductHandler repo.traced) NewRecorder
        { Body := some emptyObjectBody, id := "" } (st, [])).2.2
        = [RepoCall.CreateProduct "" "" "" 0 { bits := 0 } none]
    ∧ ((ProductHandler.CreateProduct cv (NewProductHandler repo.traced) NewRecorder
        { Body := some emptyObjectBody, id := "" } (st, [])).1.Code = 201
      ∨ (ProductHandler.CreateProduct cv (NewProductHandler repo.traced) NewRecorder
        { Body := some emptyObjectBody, id := "" } (st, [])).1.Code = 500) := by
  have hdec : Decode cv (some emptyObjectBody) = .ok Product.zero := rfl
  refine ⟨hdec, ?_, ?_⟩
  · simp only [ProductHandler.CreateProduct, hdec, NewProductHandler, ProductRepository.traced]
    rcases hrepo : repo.CreateProduct Product.zero.Name Product.zero.Category Product.zero.Unit
        Product.zero.Quantity Product.zero.Price Product.zero.ExpiryDate st with ⟨⟨id, _ | e⟩, st1⟩ <;>
      simp [Product.zero]
  · simp only [ProductHandler.CreateProduct, hdec, NewProductHandler, ProductRepository.traced]
    rcases hrepo : repo.CreateProduct Product.zero.Name Product.zero.Category Product.zero.Unit
        Product.zero.Quantity Product.zero.Price Product.zero.ExpiryDate st with ⟨⟨id, _ | e⟩, st1⟩
    · left
      cases hm : Product.Marshal cv { Product.zero with ID := id } <;>
        simp [hm, Encode, ResponseRecorder.Write, ResponseRecorder.WriteHeader, NewRecorder,
          StatusCreated]
    · right
      simp [Error, ResponseRecorder.Write, ResponseRecorder.WriteHeader, NewRecorder,
        StatusInternalServerError]

/-! ## strconv.Atoi -/

/-- The digit loop of `ParseUint` ends without an error, or with a syntax error and the
value 0, or with a range error and the value `maxVal`. -/
theorem parseUintLoop_cases (maxVal : Nat) (cs : List Nat) (n : Nat) :
    (parseUintLoop maxVal cs n).2 = none
    ∨ parseUintLoop maxVal cs n = (0, some ErrSyntax)
    ∨ parseUintLoop maxVal cs n = (maxVal, some ErrRange) := by
  induction cs generalizing n with
  | nil => left; rfl
  | cons c cs ih =>
    simp only [parseUintLoop]
    split_ifs
    · right; right; rfl
    · right; right; rfl
    · exact ih _
    · right; left; rfl

/-- The outcomes of `ParseUint` for the size of `int`. -/
theorem ParseUint_cases (s : List Nat) :
    (ParseUint s 0).2 = none
    ∨ ParseUint s 0 = (0, some ErrSyntax)
    ∨ ParseUint s 0 = (2 ^ 64 - 1, some ErrRange) := by
  unfold ParseUint
  by_cases hs : s = []
  · right; left; simp [hs]
  · rw [if_neg hs]
    exact parseUintLoop_cases _ _ _

/-- The outcomes of `ParseInt` for the size of `int`: no error, a syntax error with the
value 0, or a range error with the bound of `int` on the side of the sign. -/
theorem ParseInt_cases (s : List Nat) :
    (ParseInt s 0).2 = none
    ∨ ParseInt s 0 = (0, some ErrSyntax)
    ∨ ParseInt s 0 = (if s.head? = some 45 then -(2 ^ 63 : Int) else 2 ^ 63 - 1, some ErrRange) := by
  unfold ParseInt
  by_cases hs : s = []
  · right; left; simp [hs]
  · rw [if_neg hs]
    have h := ParseUint_cases (if s.head? = some 43 ∨ s.head? = some 45 then s.tail else s)
    dsimp only
    generalize ParseUint (if s.head? = some 43 ∨ s.head? = some 45 then s.tail else s) 0 = res at h
    obtain ⟨un, err⟩ := res
    simp only [intSize]
    rcases h with h | h | h
    · simp only at h
      subst h
      by_cases hneg : s.head? = some 45
      · by_cases h2 : 9223372036854775808 < un <;> simp [hneg, h2, ErrRange]
      · by_cases h1 : 9223372036854775808 ≤ un <;> simp [hneg, h1, ErrRange]
    · simp only [Prod.mk.injEq] at h
      obtain ⟨h1, h2⟩ := h
      subst h1 h2
      right; left
      simp [ErrSyntax, ErrRange]
    · simp only [Prod.mk.injEq] at h
      obtain ⟨h1, h2⟩ := h
      subst h1 h2
      right; right
      by_cases hneg : s.head? = some 45 <;> simp [hneg]

/-- The outcomes of `Atoi`: no error, a syntax error with the value 0, or a range error with
the bound of `int` on the side of the sign. -/
theorem Atoi_cases (s : String) :
    (Atoi s).2 = none
    ∨ Atoi s = (0, some ErrSyntax)
    ∨ Atoi s = (if (bytes s).head? = some 45 then -(2 ^ 63 : Int) else 2 ^ 63 - 1, some ErrRange) := by
  unfold Atoi
  dsimp only
  by_cases hfast : (intSize = 32 ∧ 0 < (bytes s).length ∧ (bytes s).length < 10)
      ∨ (intSize = 64 ∧ 0 < (bytes s).length ∧ (bytes s).length < 19)
  · rw [if_pos hfast]
    by_cases hsign : ((bytes s).head? = some 45 ∨ (bytes s).head? = some 43)
        ∧ (if (bytes s).head? = some 45 ∨ (bytes s).head? = some 43
            then (bytes s).tail else bytes s).length < 1
    · rw [if_pos hsign]
      right; left; rfl
    · rw [if_neg hsign]
      cases atoiFastLoop (if (bytes s).head? = some 45 ∨ (bytes s).head? = some 43
          then (bytes s).tail else bytes s) 0 with
      | none => right; left; rfl
      | some n => left; rfl
  · rw [if_neg hfast]
    exact ParseInt_cases _

/-- The handler `GetProductByID` calls the repository once, with the value of `Atoi` on the
path identifier, and never answers 400. -/
theorem GetProductByID_calls {σ : Type} (cv : Conv) (repo : ProductRepository σ) (r : Request)
    (st : σ) :
    (ProductHandler.GetProductByID cv (NewProductHandler repo.traced) NewRecorder r (st, [])).2.2
      = [RepoCall.GetProductByID (Atoi r.id).1]
    ∧ (ProductHandler.GetProductByID cv (NewProductHandler repo.traced) NewRecorder r (st, [])).1.Code
      ≠ 400 := by
  simp only [ProductHandler.GetProductByID, NewProductHandler, ProductRepository.traced]
  rcases repo.GetProductByID (Atoi r.id).1 st with ⟨⟨product, _ | e⟩, st1⟩
  · cases hm : marshalPtr cv product <;>
      simp [hm, Encode, ResponseRecorder.Write, ResponseRecorder.WriteHeader, NewRecorder,
        StatusOK]
  · simp [Error, ResponseRecorder.Write, ResponseRecorder.WriteHeader, NewRecorder,
      StatusNotFound]

/-- The handler `DeleteProduct` calls the repository once, with the value of `Atoi` on the
path identifier, and never answers 400. -/
theorem DeleteProduct_calls {σ : Type} (cv : Conv) (repo : ProductRepository σ) (r : Request)
    (st : σ) :
    (ProductHandler.DeleteProduct cv (NewProductHandler repo.traced) NewRecorder r (st, [])).2.2
      = [RepoCall.DeleteProduct (Atoi r.id).1]
    ∧ (ProductHandler.DeleteProduct cv (NewProductHandler repo.traced) NewRecorder r (st, [])).1.Code
      ≠ 400 := by
  simp only [ProductHandler.DeleteProduct, NewProductHandler, ProductRepository.traced]
  rcases repo.DeleteProduct (Atoi r.id).1 st with ⟨_ | e, st1⟩
  · simp [ResponseRecorder.WriteHeader, NewRecorder, StatusNoContent]
  · simp [Error, ResponseRecorder.Write, ResponseRecorder.WriteHeader, NewRecorder,
      StatusNotFound]

/-- The handler `UpdateProduct`, once the body has decoded to `p`, calls the repository once,
with the value of `Atoi` on the path identifier and the fields of `p`, and does not
answer 400. -/
theorem UpdateProduct_calls {σ : Type} (cv : Conv) (repo : ProductRepository σ) (r : Request)
    (st : σ) (p : Product) (hdec : Decode cv r.Body = .ok p) :
    (ProductHandler.UpdateProduct cv (NewProductHandler repo.traced) NewRecorder r (st, [])).2.2
      = [RepoCall.UpdateProduct (Atoi r.id).1 p.Name p.Category p.Unit p.Quantity p.Price
          p.ExpiryDate]
    ∧ (ProductHandler.UpdateProduct cv (NewProductHandler repo.traced) NewRecorder r (st, [])).1.Code
      ≠ 400 := by
  simp only [ProductHandler.UpdateProduct, NewProductHandler, ProductRepository.traced, hdec]
  rcases repo.UpdateProduct (Atoi r.id).1 p.Name p.Category p.Unit p.Quantity p.Price
      p.ExpiryDate st with ⟨_ | e, st1⟩
  · cases hm : Product.Marshal cv { p with ID := (Atoi r.id).1 } <;>
      simp [hm, Encode, ResponseRecorder.Write, ResponseRecorder.WriteHeader, NewRecorder,
        StatusOK]
  · simp [Error, ResponseRecorder.Write, ResponseRecorder.WriteHeader, NewRecorder,
      StatusInternalServerError]

/-- C5, as the code has it: when `strconv.Atoi` fails on the path identifier, `GetProductByID`,
`DeleteProduct` and (once the body has decoded) `UpdateProduct` do not answer 400 and call the
repository once, with the value `Atoi` returned next to its error: 0 for a syntax error, and
for a range error the bound of `int` on the side of the sign, 2^63 - 1 or -2^63. -/
theorem C5_failed_parse_passes_atoi_value_to_repository {σ : Type} (cv : Conv)
    (repo : ProductRepository σ) (r : Request) (st : σ) (e : GoError)
    (hfail : (Atoi r.id).2 = some e) :
    ∃ id : Int,
      ((e = ErrSyntax ∧ id = 0)
        ∨ (e = ErrRange ∧ id = if (bytes r.id).head? = some 45 then -(2 ^ 63 : Int) else 2 ^ 63 - 1))
      ∧ (ProductHandler.GetProductByID cv (NewProductHandler repo.traced) NewRecorder r
          (st, [])).2.2 = [RepoCall.GetProductByID id]
      ∧ (ProductHandler.GetProductByID cv (NewProductHandler repo.traced) NewRecorder r
          (st, [])).1.Code ≠ 400
      ∧ (ProductHandler.DeleteProduct cv (NewProductHandler repo.traced) NewRecorder r
          (st, [])).2.2 = [RepoCall.DeleteProduct id]
      ∧ (ProductHandler.DeleteProduct cv (NewProductHandler repo.traced) NewRecorder r
          (st, [])).1.Code ≠ 400
      ∧ ∀ p : Product, Decode cv r.Body = .ok p →
          (ProductHandler.UpdateProduct cv (NewProductHandler repo.traced) NewRecorder r
            (st, [])).2.2
            = [RepoCall.UpdateProduct id p.Name p.Category p.Unit p.Quantity p.Price p.ExpiryDate]
          ∧ (ProductHandler.UpdateProduct cv (NewProductHandler repo.traced) NewRecorder r
            (st, [])).1.Code ≠ 400 := by
  refine ⟨(Atoi r.id).1, ?_, (GetProductByID_calls cv repo r st).1,
    (GetProductByID_calls cv repo r st).2, (DeleteProduct_calls cv repo r st).1,
    (DeleteProduct_calls cv repo r st).2, fun p hdec => UpdateProduct_calls cv repo r st p hdec⟩
  rcases Atoi_cases r.id with h | h | h
  · rw [h] at hfail
    exact absurd hfail (by simp)
  · rw [h] at hfail ⊢
    left
    simp only [Option.some.injEq] at hfail
    exact ⟨hfail.symm, rfl⟩
  · rw [h] at hfail ⊢
    right
    simp only [Option.some.injEq] at hfail
    exact ⟨hfail.symm, rfl⟩

/-- C5 as amended, at the path identifier "abc": `Atoi` fails with a syntax error and the
three handlers call the repository with 0. -/
theorem C5_failed_parse_witness :
    (Atoi "abc").2 = some ErrSyntax
    ∧ (ProductHandler.GetProductByID testConv (NewProductHandler mockOK.repo.traced) NewRecorder
        { Body := some milkBody, id := "abc" } ((), [])).2.2 = [RepoCall.GetProductByID 0]
    ∧ (ProductHandler.DeleteProduct testConv (NewProductHandler mockOK.repo.traced) NewRecorder
        { Body := some milkBody, id := "abc" } ((), [])).2.2 = [RepoCall.DeleteProduct 0]
    ∧ (ProductHandler.UpdateProduct testConv (NewProductHandler mockOK.repo.traced) NewRecorder
        { Body := some milkBody, id := "abc" } ((), [])).2.2
        = [RepoCall.UpdateProduct 0 "Milk" "Dairy" "Liter" 10 { bits := 0x4004000000000000 } none] := by
  obtain ⟨id, hid, hget, _, hdel, _, hupd⟩ :=
    C5_failed_parse_passes_atoi_value_to_repository testConv mockOK.repo
      { Body := some milkBody, id := "abc" } () ErrSyntax (by decide)
  have h0 : id = 0 := by
    rcases hid with h | h
    · exact h.2
    · exact absurd h.1 (by decide)
  subst h0
  exact ⟨by decide, hget, hdel, (hupd milk rfl).1⟩

/-- C5 as stated fails: on the path identifier "9223372036854775808", one more than the
largest `int`, `Atoi` fails with a range error and the three handlers call the repository
with 9223372036854775807, not with 0. -/
theorem C5_range_error_is_not_identifier_zero :
    (Atoi "9223372036854775808").2 = some ErrRange
    ∧ (ProductHandler.GetProductByID testConv (NewProductHandler mockOK.repo.traced) NewRecorder
        { Body := some milkBody, id := "9223372036854775808" } ((), [])).2.2
        = [RepoCall.GetProductByID 9223372036854775807]
    ∧ (ProductHandler.DeleteProduct testConv (NewProductHandler mockOK.repo.traced) NewRecorder
        { Body := some milkBody, id := "9223372036854775808" } ((), [])).2.2
        = [RepoCall.DeleteProduct 9223372036854775807]
    ∧ (ProductHandler.UpdateProduct testConv (NewProductHandler mockOK.repo.traced) NewRecorder
        { Body := some milkBody, id := "9223372036854775808" } ((), [])).2.2
        = [RepoCall.UpdateProduct 9223372036854775807 "Milk" "Dairy" "Liter" 10
            { bits := 0x4004000000000000 } none]
    ∧ (ProductHandler.GetProductByID testConv (NewProductHandler mockOK.repo.traced) NewRecorder
        { Body := some milkBody, id := "9223372036854775808" } ((), [])).2.2
        ≠ [RepoCall.GetProductByID 0] := by
  refine ⟨by decide, by decide, by decide, by decide, by decide⟩

/-! ## Repository -/

/-- With no rows the loop of `GetProducts` returns the nil slice it started from. -/
theorem GetProducts_no_rows_is_nil {δ : Type} (db : Database δ) (st st1 : δ) (e : error)
    (hq : db.Query queryGetProducts [] st = (({ rows := [], err := e }, none), st1)) :
    Repository.GetProducts (NewRepository db) st = ((none, none), st1) := by
  simp [Repository.GetProducts, NewRepository, hq, scanRows]

/-- C6: over a table with no rows `Repository.GetProducts` returns the nil slice and no error,
and the `GetProducts` handler backed by it answers 200 with the JSON document `null`, which is
not the empty array. -/
theorem C6_empty_table_is_encoded_as_null (cv : Conv) (r : Request) :
    Repository.GetProducts (NewRepository emptyTable) () = ((none, none), ())
    ∧ ProductHandler.GetProducts cv
        (NewProductHandler (NewRepository emptyTable).asProductRepository) NewRecorder r ()
        = ({ Code := 200, wroteHeader := true, Body := [.json .null] }, ()) := by
  have h : Repository.GetProducts (NewRepository emptyTable) () = ((none, none), ()) :=
    GetProducts_no_rows_is_nil emptyTable () () none rfl
  refine ⟨h, ?_⟩
  simp [ProductHandler.GetProducts, NewProductHandler, Repository.asProductRepository, h,
    marshalSlice, Encode, ResponseRecorder.Write, ResponseRecorder.WriteHeader, NewRecorder,
    StatusOK]

/-- An error is found on its own `Unwrap` chain. -/
theorem GoError.Is_self (e : GoError) : e.Is e = true := by
  cases e <;> simp [GoError.Is]

/-- C7: when the scan of the single row fails with `err`, `Repository.GetProductByID` returns a
nil product and an error that wraps `err` itself: `Unwrap` gives `err` back, the message is
"failed to get product: " followed by the message of `err`, and `errors.Is` still finds `err`,
whatever `err` is. -/
theorem C7_scan_failure_returns_nil_and_wraps_cause {δ : Type} (db : Database δ) (id : Int)
    (st : δ) (err : GoError)
    (hscan : ((db.QueryRow queryGetProductByID [.int id] st).1 >>= scanProduct) = .error err) :
    ∃ e : GoError,
      (Repository.GetProductByID (NewRepository db) id st).1 = (none, some e)
      ∧ e.Unwrap = some err
      ∧ e.Error = "failed to get product: " ++ err.Error
      ∧ e.Is err = true := by
  refine ⟨Errorf "failed to get product: " err, ?_, rfl, rfl, ?_⟩
  · simp only [Repository.GetProductByID, NewRepository]
    rw [hscan]
  · simp [Errorf, GoError.Is, GoError.Is_self]

/-- C7 at `TestRepository_GetProductByID_NotFound`: the driver reports "no rows in result
set" for the identifier 999, and the repository returns nil with that error wrapped. -/
theorem C7_no_rows_witness :
    ∃ e : GoError,
      (Repository.GetProductByID
        (NewRepository (mockDB (.error ErrNoRows) ({ rowsAffected := 0 }, none)
          ({ rows := [], err := none }, none))) 999 ()).1 = (none, some e)
      ∧ e.Unwrap = some ErrNoRows
      ∧ e.Error = "failed to get product: " ++ ErrNoRows.Error
      ∧ e.Is ErrNoRows = true :=
  C7_scan_failure_returns_nil_and_wraps_cause
    (mockDB (.error ErrNoRows) ({ rowsAffected := 0 }, none) ({ rows := [], err := none }, none))
    999 () ErrNoRows rfl

/-- C8: when the row the database returns for the queried identifier has the columns
`(id, name, category, quantity, unit, price, expiry_date, created_at, updated_at)`,
`Repository.GetProductByID` returns no error and the product whose nine fields are these nine
values in that order; a NULL `expiry_date` gives a nil `ExpiryDate`. -/
theorem C8_row_maps_to_product_fields_in_order {δ : Type} (db : Database δ) (queried : Int)
    (st : δ) (id : Int) (name category : String) (quantity : Int) (unit : String)
    (price : Float64) (expiryDate : Option Time) (createdAt updatedAt : Time)
    (hrow : (db.QueryRow queryGetProductByID [.int queried] st).1
      = .ok [.int id, .text name, .text category, .int quantity, .text unit, .float price,
          Value.ofTimePtr expiryDate, .timestamp createdAt, .timestamp updatedAt]) :
    (Repository.GetProductByID (NewRepository db) queried st).1
      = (some { ID := id, Name := name, Category := category, Quantity := quantity,
                Unit := unit, Price := price, ExpiryDate := expiryDate,
                CreatedAt := createdAt, UpdatedAt := updatedAt }, none) := by
  simp only [Repository.GetProductByID, NewRepository]
  rw [hrow]
  cases expiryDate <;> rfl

/-- C8 at the row of `TestRepository_GetProductByID`, whose `expiry_date` is NULL. -/
theorem C8_row_maps_witness :
    (Repository.GetProductByID
      (NewRepository (mockDB (.ok [.int 1, .text "Milk", .text "Dairy", .int 100, .text "liters",
          .float { bits := 0x4004000000000000 }, .null, .timestamp testNow, .timestamp testNow])
        ({ rowsAffected := 0 }, none) ({ rows := [], err := none }, none))) 1 ()).1
      = (some { ID := 1, Name := "Milk", Category := "Dairy", Quantity := 100, Unit := "liters",
                Price := { bits := 0x4004000000000000 }, ExpiryDate := none,
                CreatedAt := testNow, UpdatedAt := testNow }, none) :=
  C8_row_maps_to_product_fields_in_order
    (mockDB (.ok [.int 1, .text "Milk", .text "Dairy", .int 100, .text "liters",
        .float { bits := 0x4004000000000000 }, .null, .timestamp testNow, .timestamp testNow])
      ({ rowsAffected := 0 }, none) ({ rows := [], err := none }, none))
    1 () 1 "Milk" "Dairy" 100 "liters" { bits := 0x4004000000000000 } none testNow testNow rfl

/-- The loop of `GetProducts` from the slice `acc`: a failure as soon as a row does not scan,
otherwise the products of `acc` followed by one product per row. -/
theorem observe_scanRows (rows : List (List Value)) (acc : ProductSlice) :
    observe (scanRows rows acc)
      = if rows.any (fun row => (rowProduct row).isNone) then Outcome.failed
        else Outcome.products (acc.elems ++ rows.filterMap rowProduct) := by
  induction rows generalizing acc with
  | nil => cases acc <;> simp [scanRows, observe]
  | cons row rest ih =>
    cases hrow : scanProduct row with
    | error err => simp [scanRows, hrow, observe, rowProduct, Except.toOption]
    | ok product =>
      simp only [scanRows, hrow]
      rw [ih]
      simp [rowProduct, hrow, Except.toOption, ProductSlice.append, ProductSlice.elems]

/-- When no row fails to scan, the reference has one product per row. -/
theorem filterMap_rowProduct_length (rows : List (List Value))
    (hall : rows.any (fun row => (rowProduct row).isNone) = false) :
    (rows.filterMap rowProduct).length = rows.length := by
  induction rows with
  | nil => rfl
  | cons row rest ih =>
    simp only [List.any_cons, Bool.or_eq_false_iff] at hall
    cases hrow : rowProduct row with
    | none => simp [hrow] at hall
    | some product => simp [List.filterMap_cons, hrow, ih hall.2]

/-- When the reading of the rows ends without an error in `Err()`, what
`Repository.GetProducts` returns is what the reference gives for the result of the multi-row
query (an error and the nil slice when `Query` fails or a row does not scan, otherwise no error
and the products of the rows in order), and the database is left in the state the query left
it in. -/
theorem GetProducts_agrees_with_reference_on_complete_reads {δ : Type} (db : Database δ)
    (st : δ) (herr : (db.Query queryGetProducts [] st).1.1.err = none) :
    observe (Repository.GetProducts (NewRepository db) st).1
      = GetProductsSpec (db.Query queryGetProducts [] st).1
    ∧ (Repository.GetProducts (NewRepository db) st).2 = (db.Query queryGetProducts [] st).2 := by
  rcases hq : db.Query queryGetProducts [] st with ⟨⟨rows, _ | err⟩, st1⟩
  · rw [hq] at herr
    simp only at herr
    refine ⟨?_, ?_⟩
    · simp only [Repository.GetProducts, NewRepository, hq, GetProductsSpec]
      rw [observe_scanRows]
      simp [ProductSlice.elems, herr]
    · simp [Repository.GetProducts, NewRepository, hq]
  · refine ⟨?_, ?_⟩
    · simp [Repository.GetProducts, NewRepository, hq, GetProductsSpec, observe]
    · simp [Repository.GetProducts, NewRepository, hq]

/-- The agreement with the reference at the two rows of `TestRepository_GetProducts`, which
give two products, and at a table with no rows, which gives the sequence of length 0 without
an error. -/
theorem GetProducts_agrees_at_test_rows :
    observe (Repository.GetProducts (NewRepository (mockDB (.error ErrNoRows)
        ({ rowsAffected := 0 }, none) ({ rows := milkAndCheeseRows testNow, err := none }, none)))
        ()).1
      = Outcome.products
        [{ ID := 1, Name := "Milk", Category := "Dairy", Quantity := 100, Unit := "liters",
           Price := { bits := 0x4004000000000000 }, ExpiryDate := none, CreatedAt := testNow,
           UpdatedAt := testNow },
         { ID := 2, Name := "Cheese", Category := "Dairy", Quantity := 50, Unit := "kg",
           Price := { bits := 0x4014000000000000 }, ExpiryDate := none, CreatedAt := testNow,
           UpdatedAt := testNow }]
    ∧ observe (Repository.GetProducts (NewRepository emptyTable) ()).1 = Outcome.products [] :=
  ⟨(GetProducts_agrees_with_reference_on_complete_reads (mockDB (.error ErrNoRows)
      ({ rowsAffected := 0 }, none) ({ rows := milkAndCheeseRows testNow, err := none }, none))
      () rfl).1.trans rfl,
   (GetProducts_agrees_with_reference_on_complete_reads emptyTable () rfl).1.trans rfl⟩

/-- C9: when the multi-row query fails while its rows are read, `Repository.GetProducts` does
not do what the reference does. On `cutShortDB` the query returns no error, delivers one row
and ends with "connection lost" in `Err()`; the method never consults `Err()` and returns
that one product with a nil error, where the reference has an error and no products. -/
theorem C9_read_cut_short_is_returned_as_success :
    (cutShortDB.Query queryGetProducts [] ()).1
      = ({ rows := [[.int 1, .text "Milk", .text "Dairy", .int 100, .text "liters",
            .float { bits := 0x4004000000000000 }, .null, .timestamp testNow,
            .timestamp testNow]],
           err := some (.New "connection lost") }, none)
    ∧ Repository.GetProducts (NewRepository cutShortDB) ()
      = ((some [{ ID := 1, Name := "Milk", Category := "Dairy", Quantity := 100,
                  Unit := "liters", Price := { bits := 0x4004000000000000 },
                  ExpiryDate := none, CreatedAt := testNow, UpdatedAt := testNow }], none), ())
    ∧ GetProductsSpec (cutShortDB.Query queryGetProducts [] ()).1 = Outcome.failed
    ∧ observe (Repository.GetProducts (NewRepository cutShortDB) ()).1
      ≠ GetProductsSpec (cutShortDB.Query queryGetProducts [] ()).1 := by
  refine ⟨rfl, rfl, rfl, ?_⟩
  decide

/-- C10: `Repository.CreateProduct` makes one call to the database, `QueryRow` with the insert
statement and the parameters `(name, category, quantity, unit, price, expiryDate)`, and
`Repository.UpdateProduct` one call, `Exec` with the update statement and the parameters
`(name, category, quantity, unit, price, expiryDate, id)`. The two statements are the texts
that bind the parameters, in this order, to the columns `name`, `category`, `quantity`, `unit`,
`price`, `expiry_date`, so quantity is `$3`, unit is `$4`, and the identifier of the update
is `$7`. -/
theorem C10_create_and_update_bind_parameters_by_column {δ : Type} (db : Database δ) (id : Int)
    (name category unit : String) (quantity : Int) (price : Float64) (expiryDate : Option Time)
    (st : δ) :
    (Repository.CreateProduct (NewRepository db.traced) name category unit quantity price
        expiryDate (st, [])).2.2
      = [DBCall.QueryRow queryCreateProduct
          [.string name, .string category, .int quantity, .string unit, .float64 price,
            .timePtr expiryDate]]
    ∧ (Repository.UpdateProduct (NewRepository db.traced) id name category unit quantity price
        expiryDate (st, [])).2.2
      = [DBCall.Exec queryUpdateProduct
          [.string name, .string category, .int quantity, .string unit, .float64 price,
            .timePtr expiryDate, .int id]]
    ∧ queryCreateProduct
      = insertStatement ["name", "category", "quantity", "unit", "price", "expiry_date"]
    ∧ queryUpdateProduct
      = updateStatement ["name", "category", "quantity", "unit", "price", "expiry_date"]
    ∧ placeholder 2 = "$3" ∧ placeholder 3 = "$4" ∧ placeholder 6 = "$7" := by
  refine ⟨?_, ?_, rfl, rfl, rfl, rfl, rfl⟩
  · simp only [Repository.CreateProduct, NewRepository, Database.traced]
    cases ((db.QueryRow queryCreateProduct [.string name, .string category, .int quantity,
      .string unit, .float64 price, .timePtr expiryDate] st).1 >>= scanID) <;> rfl
  · simp only [Repository.UpdateProduct, NewRepository, Database.traced]
    rcases db.Exec queryUpdateProduct [.string name, .string category, .int quantity,
      .string unit, .float64 price, .timePtr expiryDate, .int id] st with ⟨⟨tag, _ | err⟩, st1⟩ <;>
      rfl

/-- C11: `Repository.UpdateProduct` and `Repository.DeleteProduct` return an error exactly when
their `Exec` returned one. When `Exec` returns no error they return nil and leave the database
in the state `Exec` left it in, whatever the command tag says, so also when no row was
affected. -/
theorem C11_update_and_delete_fail_exactly_when_exec_fails {δ : Type} (db : Database δ)
    (id : Int) (name category unit : String) (quantity : Int) (price : Float64)
    (expiryDate : Option Time) (st : δ) :
    ((Repository.UpdateProduct (NewRepository db) id name category unit quantity price
          expiryDate st).1.isSome
        ↔ (db.Exec queryUpdateProduct [.string name, .string category, .int quantity,
            .string unit, .float64 price, .timePtr expiryDate, .int id] st).1.2.isSome)
    ∧ ((Repository.DeleteProduct (NewRepository db) id st).1.isSome
        ↔ (db.Exec queryDeleteProduct [.int id] st).1.2.isSome)
    ∧ (∀ (tag : CommandTag) (st1 : δ),
        db.Exec queryUpdateProduct [.string name, .string category, .int quantity,
            .string unit, .float64 price, .timePtr expiryDate, .int id] st = ((tag, none), st1) →
        Repository.UpdateProduct (NewRepository db) id name category unit quantity price
          expiryDate st = (none, st1))
    ∧ (∀ (tag : CommandTag) (st1 : δ),
        db.Exec queryDeleteProduct [.int id] st = ((tag, none), st1) →
        Repository.DeleteProduct (NewRepository db) id st = (none, st1)) := by
  refine ⟨?_, ?_, ?_, ?_⟩
  · simp only [Repository.UpdateProduct, NewRepository]
    rcases db.Exec queryUpdateProduct [.string name, .string category, .int quantity,
      .string unit, .float64 price, .timePtr expiryDate, .int id] st with ⟨⟨tag, _ | err⟩, st1⟩ <;>
      simp
  · simp only [Repository.DeleteProduct, NewRepository]
    rcases db.Exec queryDeleteProduct [.int id] st with ⟨⟨tag, _ | err⟩, st1⟩ <;> simp
  · intro tag st1 hexec
    simp only [Repository.UpdateProduct, NewRepository]
    rw [hexec]
  · intro tag st1 hexec
    simp only [Repository.DeleteProduct, NewRepository]
    rw [hexec]

/-- C11 at a table with no rows: the update and the delete of the identifier 999 affect no row
and return no error. -/
theorem C11_no_row_affected_witness :
    Repository.UpdateProduct (NewRepository emptyTable) 999 "Yogurt" "Dairy" "liters" 80
        { bits := 0x4008000000000000 } none () = (none, ())
    ∧ Repository.DeleteProduct (NewRepository emptyTable) 999 () = (none, ()) :=
  have h := C11_update_and_delete_fail_exactly_when_exec_fails emptyTable 999 "Yogurt" "Dairy"
    "liters" 80 { bits := 0x4008000000000000 } none ()
  ⟨h.2.2.1 { rowsAffected := 0 } () rfl, h.2.2.2 { rowsAffected := 0 } () rfl⟩

end products
